import Mathlib

/-!
Verification development for the deal-sniper listing pipeline.

Shallow embedding of the repository's core, translated from the Python
(and embedded JavaScript) sources:

* `scraper.py` — listing extraction strategies (`scrape_modern_blocket`,
  `scrape_article_based`, `scrape_fallback`, dispatched by
  `try_scraping_approaches`), the business filter `is_profitable`, and the
  filter/dedup loop of `scrape_blocket_search`;
* `database.py` — the durable seen-listing store (`is_listing_seen`,
  `mark_listing_seen`, `cleanup_old_listings`);
* `ai_judge.py` — response handling of `analyze_listing`;
* `main.py` — the run orchestrator (`main` and the `__main__` block).

The durable SQLite table is modelled as an ordered association list of rows;
page DOM content is modelled as the lists of container elements each CSS
selector family would return, with the text/attribute payloads the embedded
JavaScript reads from them.
-/

namespace DealSniper

/-! ## String helpers (semantics of the JS and Python string operations) -/

/-- Substring test over the underlying character lists: semantics of the
JS/Python `in` operator on strings. -/
def listContainsSub (p : List Char) : List Char → Bool
  | [] => p.isEmpty
  | c :: t => p.isPrefixOf (c :: t) || listContainsSub p t

/-- Embedding of `needle in hay` for strings (case-sensitive substring test). -/
def strContainsSub (hay needle : String) : Bool :=
  listContainsSub needle.data hay.data

/-- Embedding of `s.lower()` / `.toLowerCase()`. -/
def lowerStr (s : String) : String := ⟨s.data.map Char.toLower⟩

/-- JS `text.trim()` / Python `str.strip()`: drop leading and trailing
whitespace. -/
def trimStr (s : String) : String :=
  ⟨((s.data.dropWhile Char.isWhitespace).reverse.dropWhile Char.isWhitespace).reverse⟩

/-- JS `str.split(sep)` for a one-character separator, over char lists. -/
def splitChar (sep : Char) : List Char → List (List Char)
  | [] => [[]]
  | c :: t =>
    let r := splitChar sep t
    if c = sep then [] :: r
    else
      match r with
      | [] => [[c]]
      | h :: rt => (c :: h) :: rt

/-- JS `replace(/\s+/g, '')`: remove every whitespace character. -/
def stripWS (s : String) : String := ⟨s.data.filter (fun c => !c.isWhitespace)⟩

/-- JS `replace(/[^0-9]/g, '')`: keep only decimal digits. -/
def digitsOnly (s : String) : String := ⟨s.data.filter Char.isDigit⟩

/-- Numeric value of a decimal-digit string; the empty string gives `0`,
matching JS `parseInt('') || 0`. -/
def digitsVal (s : String) : Nat :=
  s.data.foldl (fun n c => n * 10 + (c.toNat - 48)) 0

/-- The whole price pipeline of the extraction strategies:
`parseInt(text.trim().replace(/\s+/g,'').replace(/[^0-9]/g,'')) || 0`. -/
def parsePrice (text : String) : Nat :=
  digitsVal (digitsOnly (stripWS (trimStr text)))

/-- JS `url.split('/').pop().split('?')[0]`: the last path segment of the
listing URL, cut at the first query marker. -/
def idFromUrl (url : String) : String :=
  ⟨((splitChar '?' ((splitChar '/' url.data).getLastD [])).headD [])⟩

/-! ## Data model -/

/-- One scraped listing, as pushed by the extraction strategies:
`{id, title, price, url, source}`. -/
structure Listing where
  id : String
  title : String
  price : Nat
  url : String
  source : String
deriving DecidableEq, Repr

/-- One container element as seen by an extraction strategy: the optional
title element's text, the optional price element's text, and the optional
listing-anchor's `href`.  `none` models the selector matching nothing. -/
structure RawContainer where
  titleText : Option String
  priceText : Option String
  linkHref : Option String
deriving DecidableEq, Repr

/-- Rendered page content, modelled as the containers each strategy's
selector family finds: `[data-testid*="listing"], [data-testid*="ad"]`
elements, `article` elements, and containers around `a[href*="/annons/"]`
links. -/
structure Page where
  modernContainers : List RawContainer
  articleContainers : List RawContainer
  fallbackContainers : List RawContainer
deriving DecidableEq, Repr

/-! ## Listing extraction (`scraper.py` embedded JavaScript)

All three strategies run the same per-container body: require the title,
price and link elements, trim the title, normalize and digit-strip the
price text, and push the item only when the title is non-empty and the
parsed price is strictly positive; a container failing any of this is
skipped (the JS wraps each container in `try {...} catch (e) {}`). -/

/-- Per-container body shared by the three strategies. -/
def parseContainer (c : RawContainer) : Option Listing :=
  match c.titleText, c.priceText, c.linkHref with
  | some tt, some pt, some href =>
    let title := trimStr tt
    let price := parsePrice pt
    if title ≠ "" ∧ price > 0 then
      some { id := idFromUrl href, title := title, price := price,
             url := href, source := "blocket" }
    else none
  | _, _, _ => none

/-- Strategy 1: modern Blocket markup (`data-testid` attributes). -/
def scrape_modern_blocket (p : Page) : List Listing :=
  p.modernContainers.filterMap parseContainer

/-- Strategy 2: traditional `article`-based markup. -/
def scrape_article_based (p : Page) : List Listing :=
  p.articleContainers.filterMap parseContainer

/-- Strategy 3: broad fallback around listing links. -/
def scrape_fallback (p : Page) : List Listing :=
  p.fallbackContainers.filterMap parseContainer

/-- Dispatcher core of `try_scraping_approaches`: each entry is one
strategy's outcome — `.error` when the strategy raised, `.ok` with its
listing list otherwise.  The first non-empty `.ok` wins; exceptions and
empty results fall through; exhaustion gives `[]`. -/
def tryApproaches : List (Except Unit (List Listing)) → List Listing
  | [] => []
  | .error _ :: rest => tryApproaches rest
  | .ok l :: rest => if l.isEmpty then tryApproaches rest else l

/-- Embedding of `try_scraping_approaches(page)`: the fixed strategy order
`[scrape_modern_blocket, scrape_article_based, scrape_fallback]`. -/
def try_scraping_approaches (p : Page) : List Listing :=
  tryApproaches
    [Except.ok (scrape_modern_blocket p),
     Except.ok (scrape_article_based p),
     Except.ok (scrape_fallback p)]

/-! ## Business filter (`scraper.py`, `is_profitable`)

`is_profitable` imports `PRICE_THRESHOLDS` and `KEYWORDS` from `config.py`;
the sources ship a `config.py` without those two tables, so their values are
parameters of the embedding (see `specPRICE_THRESHOLDS` / `specKEYWORDS`
below for the spec-modelled instantiation). -/

/-- The three entries of the `PRICE_THRESHOLDS` table keyed
`rtx_3080`, `xeon_workstation`, `stationary_computers`. -/
structure PriceThresholds where
  rtx_3080 : Int
  xeon_workstation : Int
  stationary_computers : Int
deriving DecidableEq, Repr

/-- The three entries of the `KEYWORDS` table, same keys. -/
structure KeywordTable where
  rtx_3080 : List String
  xeon_workstation : List String
  stationary_computers : List String
deriving DecidableEq, Repr

/-- Embedding of `any(keyword in title_lower for keyword in kws)`. -/
def anyKeywordIn (kws : List String) (title_lower : String) : Bool :=
  kws.any (fun kw => strContainsSub title_lower kw)

/-- Embedding of `is_profitable(listing, search_name)` from `scraper.py`. -/
def is_profitable (TH : PriceThresholds) (KW : KeywordTable)
    (listing : Listing) (search_name : String) : Bool :=
  let title_lower := lowerStr listing.title
  let price : Int := (listing.price : Int)
  if price ≤ 0 ∨ price > 50000 then
    false
  else if strContainsSub (lowerStr search_name) "rtx 3080" then
    decide (price ≤ TH.rtx_3080) && anyKeywordIn KW.rtx_3080 title_lower
  else if strContainsSub (lowerStr search_name) "xeon" then
    decide (price ≤ TH.xeon_workstation) && anyKeywordIn KW.xeon_workstation title_lower
  else
    decide (price ≤ TH.stationary_computers) && anyKeywordIn KW.stationary_computers title_lower

/-- Modelled from the spec: the `PRICE_THRESHOLDS` table is imported by
`is_profitable` but missing from the shipped `config.py`; the spec fixes the
Xeon search's ceiling at 5000, and the per-search ceilings of the other two
searches (8000 and 15000) appear in `config.py`'s `SEARCH_QUERIES`. -/
def specPRICE_THRESHOLDS : PriceThresholds :=
  { rtx_3080 := 8000, xeon_workstation := 5000, stationary_computers := 15000 }

/-- Modelled from the spec: the `KEYWORDS` table is imported by
`is_profitable` but missing from the shipped `config.py`; the spec fixes the
Xeon search's keyword set at `{"xeon", "workstation"}`.  The other two
entries are not given by the spec; they are populated from the corresponding
`SEARCH_QUERIES` query strings and no theorem below depends on them. -/
def specKEYWORDS : KeywordTable :=
  { rtx_3080 := ["rtx 3080"],
    xeon_workstation := ["xeon", "workstation"],
    stationary_computers := ["dator"] }

/-! ## Durable seen-listing store (`database.py`)

The SQLite table `seen_listings (id TEXT PRIMARY KEY, title, price, url,
source, created_at)` is modelled as an ordered list of rows.  Store
unavailability is modelled by a `fail` flag: when set, the SQL statement
(execute/commit) raises, which the embedding surfaces as `Except.error`. -/

/-- One row of `seen_listings`. -/
structure SeenRow where
  id : String
  title : String
  price : Nat
  url : String
  source : String
deriving DecidableEq, Repr

/-- The store contents. -/
abbrev Db : Type := List SeenRow

/-- Whether `SELECT id FROM seen_listings WHERE id = ?` returns a row. -/
def dbHas (db : Db) (listing_id : String) : Bool :=
  db.any (fun r => r.id == listing_id)

/-- Embedding of `INSERT OR IGNORE INTO seen_listings ...`: a no-op when the primary key
is already present, an append otherwise. -/
def insertOrIgnore (db : Db) (row : SeenRow) : Db :=
  if dbHas db row.id then db else db ++ [row]

/-- Embedding of `is_listing_seen(listing_id)`: no exception handler in `database.py`, so
a store failure propagates to the caller. -/
def is_listing_seen (fail : Bool) (db : Db) (listing_id : String) :
    Except Unit Bool :=
  if fail then .error () else .ok (dbHas db listing_id)

/-- The body that `mark_listing_seen` runs inside its `try`: the insert
raises iff the store is failing. -/
def mark_listing_seen_body (fail : Bool) (db : Db) (row : SeenRow) :
    Except Unit Db :=
  if fail then .error () else .ok (insertOrIgnore db row)

/-- Embedding of `mark_listing_seen(...)`: the insert/commit is wrapped in
`try ... except Exception as e: print(...)`, so a store failure is printed
and swallowed and the row is simply not recorded. -/
def mark_listing_seen (fail : Bool) (db : Db) (row : SeenRow) :
    Except Unit Db :=
  match mark_listing_seen_body fail db row with
  | .error _ => .ok db
  | .ok db' => .ok db'

/-- Embedding of `cleanup_old_listings(days)`: deletes rows older than the retention
cutoff (age is irrelevant to the claims here, so the embedding keeps the
rows abstract via a retention predicate); no handler in `database.py`, so a
store failure propagates. -/
def cleanup_old_listings (fail : Bool) (keep : SeenRow → Bool) (db : Db) :
    Except Unit Db :=
  if fail then .error () else .ok (db.filter keep)

/-- The cleanup call in `main()`: wrapped in `try ... except` that prints
"Could not cleanup old listings" and continues, so the failure is swallowed
and the store is left as it was. -/
def main_cleanup (fail : Bool) (keep : SeenRow → Bool) (db : Db) : Db :=
  match cleanup_old_listings fail keep db with
  | .error _ => db
  | .ok db' => db'

/-! ## Filter / dedup loop (`scraper.py`, `scrape_blocket_search`)

The loop body, per candidate and in source order:
skip when the id was already processed in this batch (`seen_ids`);
add the id to `seen_ids`; skip when `database.is_listing_seen(id)`;
when `is_profitable`, append to `valid_listings` and
`database.mark_listing_seen(...)`.  The pipeline claims concern a healthy
store, so the loop is embedded over the pure store operations (the
`fail = false` branches of the store embedding above). -/

/-- The row `mark_listing_seen(listing['id'], listing['title'],
listing['price'], listing['url'])` inserts (source defaulted). -/
def rowOf (l : Listing) : SeenRow :=
  { id := l.id, title := l.title, price := l.price, url := l.url,
    source := "blocket" }

/-- The `for listing in all_listings` loop of `scrape_blocket_search`. -/
def filterLoop (TH : PriceThresholds) (KW : KeywordTable)
    (search_name : String) (db : Db) (seen_ids : List String) :
    List Listing → List Listing × Db
  | [] => ([], db)
  | l :: rest =>
    if seen_ids.contains l.id then
      filterLoop TH KW search_name db seen_ids rest
    else
      let seen_ids' := l.id :: seen_ids
      if dbHas db l.id then
        filterLoop TH KW search_name db seen_ids' rest
      else if is_profitable TH KW l search_name then
        let db' := insertOrIgnore db (rowOf l)
        let r := filterLoop TH KW search_name db' seen_ids' rest
        (l :: r.1, r.2)
      else
        filterLoop TH KW search_name db seen_ids' rest

/-- Embedding of `scrape_blocket_search(search_url, search_name)`, given the raw
listings the pages yielded: returns the accepted listings (in discovery
order) and the store state after the run. -/
def scrape_blocket_search (TH : PriceThresholds) (KW : KeywordTable)
    (db : Db) (all_listings : List Listing) (search_name : String) :
    List Listing × Db :=
  filterLoop TH KW search_name db [] all_listings

/-! ## Run orchestrator (`main.py`)

`main()` iterates the configured searches, collects every accepted listing
into `all_new_listings`, and then sends one Discord message per collected
listing — there is no evaluation step between filtering and notification
(`main.py` neither imports nor calls `ai_judge.analyze_listing`). -/

/-- The per-search scan loop of `main()`: each search's scraped batch is
filtered against the store threaded through from the previous searches. -/
def run_searches (TH : PriceThresholds) (KW : KeywordTable) (db : Db) :
    List (String × List Listing) → List Listing × Db
  | [] => ([], db)
  | (name, batch) :: rest =>
    let r := scrape_blocket_search TH KW db batch name
    let rst := run_searches TH KW r.2 rest
    (r.1 ++ rst.1, rst.2)

/-- The listings `main()` sends to Discord (`send_discord_message` is called
once for every element of `all_new_listings`, unconditionally). -/
def main_notifications (TH : PriceThresholds) (KW : KeywordTable)
    (db : Db) (runs : List (String × List Listing)) : List Listing :=
  (run_searches TH KW db runs).1

/-- The evaluator invocations `main()` performs during a run: `main.py`
contains no call to `ai_judge.analyze_listing` (nor to
`discord_webhook.send_deal_alert`), so the list is empty by construction. -/
def main_evaluator_calls (_runs : List (String × List Listing)) :
    List Listing := []

/-- One whole process run, as launched by the `__main__` block of
`main.py`: the block removes `listings.db` when it exists ("to fix schema
issues"), re-creates the empty table via `init_database()`, and only then
runs `main()` — so the incoming durable state is discarded. -/
def process_run (TH : PriceThresholds) (KW : KeywordTable) (_db : Db)
    (runs : List (String × List Listing)) : List Listing × Db :=
  let fresh : Db := []
  run_searches TH KW fresh runs

/-! ## Evaluator response handling (`ai_judge.py`, `analyze_listing`) -/

/-- A JSON scalar as stored into the decision dict: the validation loop
writes the number `0` into missing non-`reason` fields, so a field's value
is either a string or a number. -/
inductive JVal where
  | s (v : String)
  | n (v : Int)
deriving DecidableEq, Repr

/-- The decision object as parsed by `json.loads`: each required field is
present or absent. -/
structure RawDecision where
  verdict : Option JVal
  reason : Option JVal
  estimated_market_value : Option JVal
  estimated_profit : Option JVal
  profit_percentage : Option JVal
  comparison_count : Option JVal
deriving DecidableEq, Repr

/-- The decision after the required-field validation loop: every field
populated. -/
structure Decision where
  verdict : JVal
  reason : JVal
  estimated_market_value : JVal
  estimated_profit : JVal
  profit_percentage : JVal
  comparison_count : JVal
deriving DecidableEq, Repr

/-- The `for field in required_fields: if field not in decision:
decision[field] = 0 if field != "reason" else "Missing field in AI
response"` loop. -/
def fillRequiredFields (d : RawDecision) : Decision :=
  { verdict := d.verdict.getD (.n 0),
    reason := d.reason.getD (.s "Missing field in AI response"),
    estimated_market_value := d.estimated_market_value.getD (.n 0),
    estimated_profit := d.estimated_profit.getD (.n 0),
    profit_percentage := d.profit_percentage.getD (.n 0),
    comparison_count := d.comparison_count.getD (.n 0) }

/-- How one evaluator round trip went, as distinguished by
`analyze_listing`'s control flow. -/
inductive AIResult where
  /-- any exception outside JSON decoding (network failure, evaluator
  unavailable, ...): caught by the trailing `except Exception`. -/
  | httpError
  /-- the HTTP result had no `response` key: `result.get('response', ...)`
  substitutes a fully populated BAD decision string. -/
  | noResponseField
  /-- the case where `json.loads` raised on the response text: caught by
  `except json.JSONDecodeError`. -/
  | jsonError
  /-- the response text parsed to a JSON object. -/
  | parsed (d : RawDecision)
deriving DecidableEq, Repr

/-- The conservative decision built by the `except` branches. -/
def badDecision (why : String) : Decision :=
  { verdict := .s "BAD", reason := .s why, estimated_market_value := .n 0,
    estimated_profit := .n 0, profit_percentage := .n 0,
    comparison_count := .n 0 }

/-- Result of `analyze_listing` as a function of how the evaluator round
trip went (the prompt body does not influence the returned decision). -/
def analyze_listing : AIResult → Decision
  | .httpError => badDecision "Error during analysis"
  | .jsonError => badDecision "AI returned invalid JSON format"
  | .noResponseField =>
    fillRequiredFields
      { verdict := some (.s "BAD"), reason := some (.s "AI failed to respond"),
        estimated_market_value := some (.n 0), estimated_profit := some (.n 0),
        profit_percentage := some (.n 0), comparison_count := some (.n 0) }
  | .parsed d => fillRequiredFields d

/-! ## Dispatch tables and staged form of the filter (for the theorems) -/

/-- The price ceiling `is_profitable` selects for a search name (same
dispatch as the source's `if`/`elif`/`else` chain). -/
def thresholdFor (TH : PriceThresholds) (search_name : String) : Int :=
  if strContainsSub (lowerStr search_name) "rtx 3080" then TH.rtx_3080
  else if strContainsSub (lowerStr search_name) "xeon" then TH.xeon_workstation
  else TH.stationary_computers

/-- The keyword set `is_profitable` selects for a search name. -/
def keywordsFor (KW : KeywordTable) (search_name : String) : List String :=
  if strContainsSub (lowerStr search_name) "rtx 3080" then KW.rtx_3080
  else if strContainsSub (lowerStr search_name) "xeon" then KW.xeon_workstation
  else KW.stationary_computers

/-- The business-filter acceptance rule exactly as the spec words it
(§4.3 step 3): price within the configured ceiling AND title contains at
least one keyword (case-insensitive substring), with an empty keyword set
accepting on price alone.  Reference definition for comparison with
`is_profitable`. -/
def businessAcceptSpec (ceiling : Int) (kws : List String) (l : Listing) : Bool :=
  decide ((l.price : Int) ≤ ceiling) &&
    (kws.isEmpty || anyKeywordIn kws (lowerStr l.title))

/-- The filter stage exactly as the claim words its intra-batch dedup: a
candidate is dropped when its id repeats one already **accepted** earlier in
the batch (then cross-run dedup, then the business filter).  Reference
definition for comparison with `filterLoop`. -/
def filterClaimedSteps (accept : Listing → Bool) (db : Db)
    (accepted_ids : List String) : List Listing → List Listing
  | [] => []
  | l :: rest =>
    if accepted_ids.contains l.id then
      filterClaimedSteps accept db accepted_ids rest
    else if dbHas db l.id then
      filterClaimedSteps accept db accepted_ids rest
    else if accept l then
      l :: filterClaimedSteps accept db (l.id :: accepted_ids) rest
    else
      filterClaimedSteps accept db accepted_ids rest

/-- Intra-batch dedup as a standalone stage: keep the first occurrence of
each id, dropping ids already in `seen`. -/
def dedupFirst (seen : List String) : List Listing → List Listing
  | [] => []
  | l :: rest =>
    if seen.contains l.id then dedupFirst seen rest
    else l :: dedupFirst (l.id :: seen) rest

/-- Record a batch of accepted listings into the store, left to right. -/
def insertAll (db : Db) (ls : List Listing) : Db :=
  ls.foldl (fun d l => insertOrIgnore d (rowOf l)) db

/-- The filter stage as three ordered whole-batch stages (the shape the
spec describes): intra-batch dedup, then cross-run dedup against the store,
then the business filter, with every accepted listing recorded. -/
def stagedFilter (TH : PriceThresholds) (KW : KeywordTable)
    (search_name : String) (db : Db) (batch : List Listing) :
    List Listing × Db :=
  let stage1 := dedupFirst [] batch
  let stage2 := stage1.filter (fun l => !dbHas db l.id)
  let accepted := stage2.filter (fun l => is_profitable TH KW l search_name)
  (accepted, insertAll db accepted)

/-! ## Helper lemmas -/

theorem dbHas_insertOrIgnore (db : Db) (r : SeenRow) (i : String) :
    dbHas (insertOrIgnore db r) i = (dbHas db i || r.id == i) := by
  unfold insertOrIgnore
  by_cases h : dbHas db r.id
  · simp only [h, if_true]
    by_cases hri : r.id == i
    · have : r.id = i := eq_of_beq hri
      subst this
      simp [h, hri]
    · simp [hri]
  · simp only [h, if_false, Bool.false_eq_true]
    unfold dbHas
    simp [List.any_append]

theorem mem_dedupFirst_not_seen (x : Listing) :
    ∀ (batch : List Listing) (seen : List String),
      x ∈ dedupFirst seen batch → seen.contains x.id = false := by
  intro batch
  induction batch with
  | nil => intro seen h; simp [dedupFirst] at h
  | cons l rest ih =>
    intro seen h
    unfold dedupFirst at h
    by_cases h1 : seen.contains l.id
    · simp only [h1, if_true] at h
      exact ih seen h
    · simp only [h1, if_false, Bool.false_eq_true, List.mem_cons] at h
      rcases h with h | h
      · subst h
        simpa using h1
      · have h2 := ih (l.id :: seen) h
        simp only [List.contains_cons, Bool.or_eq_false_iff] at h2
        exact h2.2

theorem dedupFirst_sublist :
    ∀ (batch : List Listing) (seen : List String),
      List.Sublist (dedupFirst seen batch) batch := by
  intro batch
  induction batch with
  | nil => intro seen; simp [dedupFirst]
  | cons l rest ih =>
    intro seen
    unfold dedupFirst
    by_cases h1 : seen.contains l.id
    · simp only [h1, if_true]
      exact List.Sublist.cons l (ih seen)
    · simp only [h1, if_false, Bool.false_eq_true]
      exact List.Sublist.cons₂ l (ih (l.id :: seen))

theorem dbHas_insertAll_mono (i : String) :
    ∀ (ls : List Listing) (db : Db), dbHas db i = true →
      dbHas (insertAll db ls) i = true := by
  intro ls
  induction ls with
  | nil => intro db h; exact h
  | cons a t ih =>
    intro db h
    show dbHas (insertAll (insertOrIgnore db (rowOf a)) t) i = true
    apply ih
    rw [dbHas_insertOrIgnore, h, Bool.true_or]

theorem dbHas_insertAll_of_mem (x : Listing) :
    ∀ (ls : List Listing) (db : Db), x ∈ ls →
      dbHas (insertAll db ls) x.id = true := by
  intro ls
  induction ls with
  | nil => intro db h; simp at h
  | cons a t ih =>
    intro db h
    rcases List.mem_cons.mp h with h | h
    · subst h
      show dbHas (insertAll (insertOrIgnore db (rowOf x)) t) x.id = true
      apply dbHas_insertAll_mono
      rw [dbHas_insertOrIgnore]
      simp [rowOf]
    · exact ih (insertOrIgnore db (rowOf a)) h

/-- The filter loop of `scrape_blocket_search` equals the three ordered
whole-batch stages of `stagedFilter`, for any starting store and any
already-processed id set. -/
theorem filterLoop_staged (TH : PriceThresholds) (KW : KeywordTable)
    (name : String) :
    ∀ (batch : List Listing) (db : Db) (seen : List String),
      filterLoop TH KW name db seen batch =
        (((dedupFirst seen batch).filter (fun l => !dbHas db l.id)).filter
            (fun l => is_profitable TH KW l name),
         insertAll db
           (((dedupFirst seen batch).filter (fun l => !dbHas db l.id)).filter
             (fun l => is_profitable TH KW l name))) := by
  intro batch
  induction batch with
  | nil => intro db seen; rfl
  | cons l rest ih =>
    intro db seen
    unfold filterLoop dedupFirst
    by_cases h1 : seen.contains l.id
    · simp only [h1, if_true]
      exact ih db seen
    · simp only [h1, if_false, Bool.false_eq_true]
      by_cases h2 : dbHas db l.id
      · simp only [h2, if_true, List.filter_cons, Bool.not_true,
          Bool.false_eq_true, if_false]
        exact ih db (l.id :: seen)
      · simp only [h2, if_false, List.filter_cons, Bool.not_false, if_true,
          Bool.false_eq_true]
        by_cases h3 : is_profitable TH KW l name
        · simp only [h3, if_true]
          have hcongr :
              (dedupFirst (l.id :: seen) rest).filter
                  (fun x => !dbHas (insertOrIgnore db (rowOf l)) x.id) =
                (dedupFirst (l.id :: seen) rest).filter
                  (fun x => !dbHas db x.id) := by
            apply List.filter_congr
            intro x hx
            have hns := mem_dedupFirst_not_seen x rest (l.id :: seen) hx
            simp only [List.contains_cons, Bool.or_eq_false_iff] at hns
            have hne : (l.id == x.id) = false := by
              cases hbe : l.id == x.id
              · rfl
              · exact absurd (eq_of_beq hbe).symm (by
                  intro hEq
                  have : (x.id == l.id) = true := by
                    rw [hEq]; exact beq_self_eq_true l.id
                  rw [hns.1] at this
                  exact Bool.false_ne_true this)
            rw [dbHas_insertOrIgnore]
            simp [rowOf, hne]
          have ih' := ih (insertOrIgnore db (rowOf l)) (l.id :: seen)
          rw [hcongr] at ih'
          rw [ih']
          have hfold :
              insertAll (insertOrIgnore db (rowOf l))
                  (((dedupFirst (l.id :: seen) rest).filter
                      (fun x => !dbHas db x.id)).filter
                    (fun x => is_profitable TH KW x name)) =
                insertAll db
                  (l :: ((dedupFirst (l.id :: seen) rest).filter
                      (fun x => !dbHas db x.id)).filter
                    (fun x => is_profitable TH KW x name)) := rfl
          rw [hfold]
        · simp only [h3, if_false, Bool.false_eq_true]
          exact ih db (l.id :: seen)

/-- Closed form of `is_profitable`: the hard global bounds
`0 < price ≤ 50000` conjoined with the dispatched per-search ceiling and
keyword test. -/
theorem is_profitable_eq (TH : PriceThresholds) (KW : KeywordTable)
    (l : Listing) (name : String) :
    is_profitable TH KW l name =
      (decide (0 < (l.price : Int)) && decide ((l.price : Int) ≤ 50000) &&
       decide ((l.price : Int) ≤ thresholdFor TH name) &&
       anyKeywordIn (keywordsFor KW name) (lowerStr l.title)) := by
  unfold is_profitable thresholdFor keywordsFor
  by_cases h0 : (l.price : Int) ≤ 0 ∨ (l.price : Int) > 50000
  · rw [if_pos h0]
    rcases h0 with h | h
    · have h1 : ¬ (0 < (l.price : Int)) := not_lt.mpr h
      simp [h1]
    · have h1 : ¬ ((l.price : Int) ≤ 50000) := not_le.mpr h
      simp [h1]
  · rw [if_neg h0]
    push_neg at h0
    obtain ⟨h1, h2⟩ := h0
    by_cases hA : strContainsSub (lowerStr name) "rtx 3080" = true
    · simp [hA, h1, h2]
    · by_cases hB : strContainsSub (lowerStr name) "xeon" = true
      · simp [hA, hB, h1, h2]
      · simp [hA, hB, h1, h2]

/-- A container whose price element is absent is dropped by `parseContainer`. -/
theorem parseContainer_no_price (c : RawContainer)
    (h : c.priceText = none) : parseContainer c = none := by
  rcases c with ⟨t, p, k⟩
  simp only at h
  subst h
  cases t <;> cases k <;> rfl

/-- Claim C10: for every listing and every search name, `is_profitable`
rejects any listing whose price is not strictly positive or exceeds 50000,
regardless of the configured ceilings or any keyword match — the hard
global price cap of `scraper.py`. -/
theorem c10_global_price_cap (TH : PriceThresholds) (KW : KeywordTable)
    (l : Listing) (name : String)
    (h : (l.price : Int) ≤ 0 ∨ (l.price : Int) > 50000) :
    is_profitable TH KW l name = false := by
  unfold is_profitable
  rw [if_pos h]

theorem c10_witness :
    ((((60000 : Nat) : Int) > 50000 ∨ (((0 : Nat)) : Int) ≤ 0) ∧
      is_profitable specPRICE_THRESHOLDS specKEYWORDS
        { id := "1", title := "Dell Xeon Workstation", price := 60000,
          url := "u", source := "blocket" } "Workstation Xeon" = false) ∧
      is_profitable specPRICE_THRESHOLDS specKEYWORDS
        { id := "2", title := "Dell Xeon Workstation", price := 0,
          url := "u", source := "blocket" } "Workstation Xeon" = false :=
  ⟨⟨Or.inl (by decide),
    c10_global_price_cap specPRICE_THRESHOLDS specKEYWORDS
      { id := "1", title := "Dell Xeon Workstation", price := 60000,
        url := "u", source := "blocket" } "Workstation Xeon"
      (Or.inr (by decide))⟩,
    c10_global_price_cap specPRICE_THRESHOLDS specKEYWORDS
      { id := "2", title := "Dell Xeon Workstation", price := 0,
        url := "u", source := "blocket" } "Workstation Xeon"
      (Or.inl (by decide))⟩

/-- Claim C2, counterexample: the claimed acceptance rule (price within
ceiling AND keyword match, empty keyword set accepting on price alone)
disagrees with `is_profitable` — a search with an empty keyword set accepts
nothing, and a zero-priced keyword-matching listing within the ceiling is
rejected by the global cap. -/
theorem c2_counterexample :
    (businessAcceptSpec 5000 []
        { id := "1", title := "Dell Xeon Workstation", price := 4500,
          url := "u", source := "blocket" } = true ∧
      is_profitable specPRICE_THRESHOLDS
        { rtx_3080 := [], xeon_workstation := [], stationary_computers := [] }
        { id := "1", title := "Dell Xeon Workstation", price := 4500,
          url := "u", source := "blocket" } "Workstation Xeon" = false) ∧
      businessAcceptSpec 5000 ["xeon", "workstation"]
        { id := "2", title := "Dell Xeon Workstation", price := 0,
          url := "u", source := "blocket" } = true ∧
      is_profitable specPRICE_THRESHOLDS specKEYWORDS
        { id := "2", title := "Dell Xeon Workstation", price := 0,
          url := "u", source := "blocket" } "Workstation Xeon" = false := by
  constructor
  · exact ⟨by decide, by decide⟩
  · exact ⟨by decide, by decide⟩

/-- Claim C2, amended: a listing is accepted by `is_profitable` if and only
if its price is strictly positive, at most 50000, within the search's
dispatched ceiling, AND its lowered title contains at least one of the
search's keywords; a search whose keyword set is empty accepts nothing.
With the spec's Xeon configuration (keywords {"xeon","workstation"},
ceiling 5000), "Dell Xeon Workstation" at 4500 is accepted and at 6000 is
rejected. -/
theorem c2_business_filter :
    (∀ (TH : PriceThresholds) (KW : KeywordTable) (l : Listing) (name : String),
        is_profitable TH KW l name =
          (decide (0 < (l.price : Int)) && decide ((l.price : Int) ≤ 50000) &&
           decide ((l.price : Int) ≤ thresholdFor TH name) &&
           anyKeywordIn (keywordsFor KW name) (lowerStr l.title))) ∧
      (∀ (TH : PriceThresholds) (KW : KeywordTable) (l : Listing) (name : String),
        keywordsFor KW name = [] → is_profitable TH KW l name = false) ∧
      is_profitable specPRICE_THRESHOLDS specKEYWORDS
        { id := "1", title := "Dell Xeon Workstation", price := 4500,
          url := "u", source := "blocket" } "Workstation Xeon" = true ∧
      is_profitable specPRICE_THRESHOLDS specKEYWORDS
        { id := "1", title := "Dell Xeon Workstation", price := 6000,
          url := "u", source := "blocket" } "Workstation Xeon" = false := by
  refine ⟨is_profitable_eq, ?_, by decide, by decide⟩
  intro TH KW l name h
  rw [is_profitable_eq, h]
  simp [anyKeywordIn]

theorem c2_witness :
    keywordsFor
        { rtx_3080 := [], xeon_workstation := [], stationary_computers := [] }
        "All Stationary Computers" = [] ∧
      is_profitable specPRICE_THRESHOLDS
        { rtx_3080 := [], xeon_workstation := [], stationary_computers := [] }
        { id := "9", title := "Fin stationär dator", price := 4500,
          url := "u", source := "blocket" } "All Stationary Computers" = false :=
  ⟨by decide,
    c2_business_filter.2.1 specPRICE_THRESHOLDS
      { rtx_3080 := [], xeon_workstation := [], stationary_computers := [] }
      { id := "9", title := "Fin stationär dator", price := 4500,
        url := "u", source := "blocket" } "All Stationary Computers" (by decide)⟩

/-- Claim C5, counterexample: a price text carrying digits but no currency
marker is not rejected — the extractor keeps the digits as the price, so
"text with no currency match" does not cause rejection. -/
theorem c5_counterexample :
    strContainsSub "1234" "kr" = false ∧
      parseContainer
        { titleText := some "Dell Xeon Workstation",
          priceText := some "1234",
          linkHref := some "https://www.blocket.se/annons/111" } =
        some { id := "111", title := "Dell Xeon Workstation", price := 1234,
               url := "https://www.blocket.se/annons/111",
               source := "blocket" } := by
  exact ⟨by decide, by decide⟩

/-- Claim C5, amended: price extraction maps "12 345 kr" to 12345 (grouping
separators stripped); a price text of "0 kr", a price text with no digits
at all, or an absent price element causes the container to be rejected — a
zero or absent price is treated as unparseable, never as free.  A currency
marker is not required: any digits present are taken as the price. -/
theorem c5_price_extraction :
    parsePrice "12 345 kr" = 12345 ∧
      parseContainer
        { titleText := some "Dell Xeon Workstation",
          priceText := some "12 345 kr",
          linkHref := some "https://www.blocket.se/annons/111" } =
        some { id := "111", title := "Dell Xeon Workstation", price := 12345,
               url := "https://www.blocket.se/annons/111",
               source := "blocket" } ∧
      parseContainer
        { titleText := some "Dell Xeon Workstation",
          priceText := some "0 kr",
          linkHref := some "https://www.blocket.se/annons/111" } = none ∧
      parseContainer
        { titleText := some "Dell Xeon Workstation",
          priceText := some "Pris saknas",
          linkHref := some "https://www.blocket.se/annons/111" } = none ∧
      ∀ c : RawContainer, c.priceText = none → parseContainer c = none := by
  refine ⟨by decide, by decide, by decide, by decide, ?_⟩
  intro c h
  exact parseContainer_no_price c h

theorem c5_witness :
    ({ titleText := some "Dell", priceText := none,
       linkHref := some "https://www.blocket.se/annons/5" } : RawContainer).priceText
        = none ∧
      parseContainer
        { titleText := some "Dell", priceText := none,
          linkHref := some "https://www.blocket.se/annons/5" } = none :=
  ⟨rfl,
    c5_price_extraction.2.2.2.2
      { titleText := some "Dell", priceText := none,
        linkHref := some "https://www.blocket.se/annons/5" } rfl⟩

/-- Claim C7: each container is parsed independently — a container missing
its price element is silently skipped without affecting the others, so a
batch of 5 containers of which 1 lacks a price yields exactly the 4 valid
listings (not zero and not an exception; the extractor is a total
function). -/
theorem c7_partial_record_isolation :
    (∀ (xs ys : List RawContainer) (c : RawContainer), c.priceText = none →
        (xs ++ c :: ys).filterMap parseContainer =
          xs.filterMap parseContainer ++ ys.filterMap parseContainer) ∧
      scrape_modern_blocket
        { modernContainers :=
            [{ titleText := some "Gaming PC RTX 3080", priceText := some "7 500 kr",
               linkHref := some "https://www.blocket.se/annons/101" },
             { titleText := some "Dell Xeon Workstation", priceText := some "4 500 kr",
               linkHref := some "https://www.blocket.se/annons/102" },
             { titleText := some "HP Workstation", priceText := none,
               linkHref := some "https://www.blocket.se/annons/103" },
             { titleText := some "Stationär dator", priceText := some "2 000 kr",
               linkHref := some "https://www.blocket.se/annons/104" },
             { titleText := some "Lenovo ThinkStation", priceText := some "3 999 kr",
               linkHref := some "https://www.blocket.se/annons/105" }],
          articleContainers := [], fallbackContainers := [] } =
        [{ id := "101", title := "Gaming PC RTX 3080", price := 7500,
           url := "https://www.blocket.se/annons/101", source := "blocket" },
         { id := "102", title := "Dell Xeon Workstation", price := 4500,
           url := "https://www.blocket.se/annons/102", source := "blocket" },
         { id := "104", title := "Stationär dator", price := 2000,
           url := "https://www.blocket.se/annons/104", source := "blocket" },
         { id := "105", title := "Lenovo ThinkStation", price := 3999,
           url := "https://www.blocket.se/annons/105", source := "blocket" }] := by
  constructor
  · intro xs ys c h
    rw [List.filterMap_append, List.filterMap_cons, parseContainer_no_price c h]
  · decide

theorem c7_witness :
    ({ titleText := some "HP Workstation", priceText := none,
       linkHref := some "https://www.blocket.se/annons/103" } : RawContainer).priceText
        = none ∧
      (([{ titleText := some "Dell Xeon Workstation", priceText := some "4 500 kr",
           linkHref := some "https://www.blocket.se/annons/102" }] : List RawContainer) ++
        { titleText := some "HP Workstation", priceText := none,
          linkHref := some "https://www.blocket.se/annons/103" } ::
          ([] : List RawContainer)).filterMap parseContainer =
        ([{ titleText := some "Dell Xeon Workstation", priceText := some "4 500 kr",
            linkHref := some "https://www.blocket.se/annons/102" }] : List RawContainer).filterMap
            parseContainer ++
          ([] : List RawContainer).filterMap parseContainer :=
  ⟨rfl,
    c7_partial_record_isolation.1
      [{ titleText := some "Dell Xeon Workstation", priceText := some "4 500 kr",
         linkHref := some "https://www.blocket.se/annons/102" }] []
      { titleText := some "HP Workstation", priceText := none,
        linkHref := some "https://www.blocket.se/annons/103" } rfl⟩

/-- Claim C6: `try_scraping_approaches` tries its strategies in the fixed
order modern/article/fallback and returns the result of the first strategy
yielding at least one listing; a strategy that raises or yields zero
listings triggers fallback to the next, and exhaustion gives the empty
list rather than an error — in particular, when the modern strategy's
containers are absent but an article container carries a valid
title/price/url, that listing is still returned. -/
theorem c6_strategy_fallback :
    (∀ rest, tryApproaches (Except.error () :: rest) = tryApproaches rest) ∧
      (∀ rest, tryApproaches (Except.ok ([] : List Listing) :: rest) =
        tryApproaches rest) ∧
      (∀ (l : List Listing) rest, l ≠ [] →
        tryApproaches (Except.ok l :: rest) = l) ∧
      tryApproaches [] = [] ∧
      (∀ p : Page, try_scraping_approaches p =
        tryApproaches
          [Except.ok (scrape_modern_blocket p),
           Except.ok (scrape_article_based p),
           Except.ok (scrape_fallback p)]) ∧
      try_scraping_approaches
        { modernContainers := [],
          articleContainers :=
            [{ titleText := some "Dell Xeon Workstation",
               priceText := some "4 500 kr",
               linkHref := some "https://www.blocket.se/annons/102" }],
          fallbackContainers := [] } =
        [{ id := "102", title := "Dell Xeon Workstation", price := 4500,
           url := "https://www.blocket.se/annons/102", source := "blocket" }] := by
  refine ⟨fun rest => rfl, fun rest => rfl, ?_, rfl, fun p => rfl, by decide⟩
  intro l rest h
  cases l with
  | nil => exact absurd rfl h
  | cons a t => rfl

theorem c6_witness :
    ([{ id := "102", title := "Dell Xeon Workstation", price := 4500,
        url := "https://www.blocket.se/annons/102", source := "blocket" }] ≠
        ([] : List Listing)) ∧
      tryApproaches
        [Except.ok
          [{ id := "102", title := "Dell Xeon Workstation", price := 4500,
             url := "https://www.blocket.se/annons/102", source := "blocket" }],
         Except.error ()] =
        [{ id := "102", title := "Dell Xeon Workstation", price := 4500,
           url := "https://www.blocket.se/annons/102", source := "blocket" }] :=
  ⟨by decide,
    c6_strategy_fallback.2.2.1
      [{ id := "102", title := "Dell Xeon Workstation", price := 4500,
         url := "https://www.blocket.se/annons/102", source := "blocket" }]
      [Except.error ()] (by decide)⟩

/-- Claim C9: an evaluator response missing a required field (for example
`profit_percentage`) yields a decision with that field defaulted to 0 while
the verdict that was returned is kept; an entirely unparseable response or
an evaluator failure yields a BAD verdict with zero profit figures
(`analyze_listing` is total, so the batch never crashes). -/
theorem c9_evaluator_fallback :
    (∀ (d : RawDecision) (v : JVal), d.profit_percentage = none →
        d.verdict = some v →
        (analyze_listing (.parsed d)).profit_percentage = .n 0 ∧
          (analyze_listing (.parsed d)).verdict = v) ∧
      ((analyze_listing .jsonError).verdict = .s "BAD" ∧
        (analyze_listing .jsonError).estimated_market_value = .n 0 ∧
        (analyze_listing .jsonError).estimated_profit = .n 0 ∧
        (analyze_listing .jsonError).profit_percentage = .n 0) ∧
      (analyze_listing .httpError).verdict = .s "BAD" ∧
        (analyze_listing .httpError).estimated_market_value = .n 0 ∧
        (analyze_listing .httpError).estimated_profit = .n 0 ∧
        (analyze_listing .httpError).profit_percentage = .n 0 := by
  refine ⟨?_, ⟨rfl, rfl, rfl, rfl⟩, rfl, rfl, rfl, rfl⟩
  intro d v h1 h2
  constructor
  · simp [analyze_listing, fillRequiredFields, h1]
  · simp [analyze_listing, fillRequiredFields, h2]

theorem c9_witness :
    (({ verdict := some (.s "GOOD"), reason := some (.s "solid margin"),
        estimated_market_value := some (.n 6000),
        estimated_profit := some (.n 1500),
        profit_percentage := none,
        comparison_count := some (.n 3) } : RawDecision).profit_percentage = none ∧
      ({ verdict := some (.s "GOOD"), reason := some (.s "solid margin"),
         estimated_market_value := some (.n 6000),
         estimated_profit := some (.n 1500),
         profit_percentage := none,
         comparison_count := some (.n 3) } : RawDecision).verdict =
        some (.s "GOOD")) ∧
      (analyze_listing (.parsed
          { verdict := some (.s "GOOD"), reason := some (.s "solid margin"),
            estimated_market_value := some (.n 6000),
            estimated_profit := some (.n 1500),
            profit_percentage := none,
            comparison_count := some (.n 3) })).profit_percentage = .n 0 ∧
        (analyze_listing (.parsed
          { verdict := some (.s "GOOD"), reason := some (.s "solid margin"),
            estimated_market_value := some (.n 6000),
            estimated_profit := some (.n 1500),
            profit_percentage := none,
            comparison_count := some (.n 3) })).verdict = .s "GOOD" :=
  ⟨⟨rfl, rfl⟩,
    c9_evaluator_fallback.1
      { verdict := some (.s "GOOD"), reason := some (.s "solid margin"),
        estimated_market_value := some (.n 6000),
        estimated_profit := some (.n 1500),
        profit_percentage := none,
        comparison_count := some (.n 3) } (.s "GOOD") rfl rfl⟩

/-- Claim C3, counterexample: a store failure during a seen-insert does
not propagate — `mark_listing_seen` catches the exception and reports
success with the store unchanged. -/
theorem c3_counterexample :
    mark_listing_seen true []
        { id := "123", title := "t", price := 1, url := "u",
          source := "blocket" } = Except.ok [] ∧
      mark_listing_seen true []
        { id := "123", title := "t", price := 1, url := "u",
          source := "blocket" } ≠ Except.error () := by
  refine ⟨rfl, ?_⟩
  intro h
  simp [mark_listing_seen, mark_listing_seen_body] at h

/-- Claim C3, amended: if the durable store fails during a seen-check the
failure propagates to the caller; a failure during a seen-insert is caught,
logged and swallowed by `mark_listing_seen` (the call reports success and
the row is simply not recorded); a failure during cleanup propagates out of
`cleanup_old_listings` but is logged and swallowed by `main`'s wrapper, so
the run continues with the store unchanged. -/
theorem c3_store_failure_handling :
    (∀ (db : Db) (i : String), is_listing_seen true db i = Except.error ()) ∧
      (∀ (db : Db) (i : String),
        is_listing_seen false db i = Except.ok (dbHas db i)) ∧
      (∀ (db : Db) (r : SeenRow), mark_listing_seen true db r = Except.ok db) ∧
      (∀ (db : Db) (r : SeenRow),
        mark_listing_seen false db r = Except.ok (insertOrIgnore db r)) ∧
      (∀ (keep : SeenRow → Bool) (db : Db),
        cleanup_old_listings true keep db = Except.error ()) ∧
      (∀ (keep : SeenRow → Bool) (db : Db), main_cleanup true keep db = db) :=
  ⟨fun _ _ => rfl, fun _ _ => rfl, fun _ _ => rfl, fun _ _ => rfl,
    fun _ _ => rfl, fun _ _ => rfl⟩

/-- The filter/dedup pipeline of `scrape_blocket_search` equals its staged
form. -/
theorem scrape_eq_staged (TH : PriceThresholds) (KW : KeywordTable)
    (name : String) (db : Db) (batch : List Listing) :
    scrape_blocket_search TH KW db batch name =
      stagedFilter TH KW name db batch := by
  unfold scrape_blocket_search stagedFilter
  exact filterLoop_staged TH KW name batch db []

/-- Claim C8, counterexample: the code's intra-batch dedup drops a
candidate whose id repeats one merely *processed* earlier, even when that
earlier occurrence was rejected — with two same-id candidates, the first
over the ceiling and the second acceptable, the claimed steps (dedup only
against *accepted* ids) accept the second, while the code drops it and
accepts nothing. -/
theorem c8_counterexample :
    filterClaimedSteps
        (fun l => is_profitable specPRICE_THRESHOLDS specKEYWORDS l
          "Workstation Xeon") [] []
        [{ id := "77", title := "Dell Xeon Workstation paket", price := 6000,
           url := "uA", source := "blocket" },
         { id := "77", title := "Dell Xeon Workstation", price := 4500,
           url := "uB", source := "blocket" }] =
      [{ id := "77", title := "Dell Xeon Workstation", price := 4500,
         url := "uB", source := "blocket" }] ∧
      (scrape_blocket_search specPRICE_THRESHOLDS specKEYWORDS []
          [{ id := "77", title := "Dell Xeon Workstation paket", price := 6000,
             url := "uA", source := "blocket" },
           { id := "77", title := "Dell Xeon Workstation", price := 4500,
             url := "uB", source := "blocket" }] "Workstation Xeon").1 = [] := by
  exact ⟨by decide, by decide⟩

/-- Claim C8, amended: the filter stage applies its steps in order — first
intra-batch dedup dropping any candidate whose id repeats one *processed*
earlier in the same batch (first occurrence wins, whether or not it was
accepted), then cross-run dedup against the store, then the business
filter — each accepted candidate is recorded into the store on acceptance
(every accepted listing is present in the store state the filter returns,
before any notification is sent), and the accepted output preserves
discovery order. -/
theorem c8_filter_stage :
    (∀ (TH : PriceThresholds) (KW : KeywordTable) (name : String) (db : Db)
        (batch : List Listing),
        scrape_blocket_search TH KW db batch name =
          stagedFilter TH KW name db batch) ∧
      (∀ (TH : PriceThresholds) (KW : KeywordTable) (name : String) (db : Db)
        (batch : List Listing),
        List.Sublist (scrape_blocket_search TH KW db batch name).1 batch) ∧
      (∀ (TH : PriceThresholds) (KW : KeywordTable) (name : String) (db : Db)
        (batch : List Listing) (l : Listing),
        l ∈ (scrape_blocket_search TH KW db batch name).1 →
          dbHas (scrape_blocket_search TH KW db batch name).2 l.id = true) := by
  refine ⟨scrape_eq_staged, ?_, ?_⟩
  · intro TH KW name db batch
    rw [scrape_eq_staged]
    exact (List.filter_sublist _).trans
      ((List.filter_sublist _).trans (dedupFirst_sublist batch []))
  · intro TH KW name db batch l hl
    rw [scrape_eq_staged] at hl ⊢
    exact dbHas_insertAll_of_mem l _ db hl

theorem c8_witness :
    ({ id := "102", title := "Dell Xeon Workstation", price := 4500,
       url := "uB", source := "blocket" } : Listing) ∈
        (scrape_blocket_search specPRICE_THRESHOLDS specKEYWORDS []
          [{ id := "102", title := "Dell Xeon Workstation", price := 4500,
             url := "uB", source := "blocket" }] "Workstation Xeon").1 ∧
      dbHas
        (scrape_blocket_search specPRICE_THRESHOLDS specKEYWORDS []
          [{ id := "102", title := "Dell Xeon Workstation", price := 4500,
             url := "uB", source := "blocket" }] "Workstation Xeon").2
        "102" = true :=
  ⟨by decide,
    c8_filter_stage.2.2 specPRICE_THRESHOLDS specKEYWORDS "Workstation Xeon" []
      [{ id := "102", title := "Dell Xeon Workstation", price := 4500,
         url := "uB", source := "blocket" }]
      { id := "102", title := "Dell Xeon Workstation", price := 4500,
        url := "uB", source := "blocket" } (by decide)⟩

/-- Claim C4, counterexample: the orchestrator sends a notification for an
accepted listing although the evaluator was never invoked for it (no
verdict of any tier exists) — `main()` notifies every filtered listing
unconditionally. -/
theorem c4_counterexample :
    main_notifications specPRICE_THRESHOLDS specKEYWORDS []
        [("Workstation Xeon",
          [{ id := "1234567", title := "Dell Xeon Workstation", price := 4500,
             url := "https://www.blocket.se/annons/1234567",
             source := "blocket" }])] =
      [{ id := "1234567", title := "Dell Xeon Workstation", price := 4500,
         url := "https://www.blocket.se/annons/1234567",
         source := "blocket" }] ∧
      main_evaluator_calls
        [("Workstation Xeon",
          [{ id := "1234567", title := "Dell Xeon Workstation", price := 4500,
             url := "https://www.blocket.se/annons/1234567",
             source := "blocket" }])] = [] := by
  exact ⟨by decide, rfl⟩

/-- Claim C4, amended: `main()` never invokes the evaluator, and a
notification is sent for every listing the filter stage accepts —
search by search, in order, regardless of any verdict tier (no Hot/Good
gating exists in the orchestrator). -/
theorem c4_notification_ungated :
    (∀ runs, main_evaluator_calls runs = []) ∧
      (∀ (TH : PriceThresholds) (KW : KeywordTable) (db : Db),
        main_notifications TH KW db [] = []) ∧
      (∀ (TH : PriceThresholds) (KW : KeywordTable) (db : Db) (name : String)
        (batch : List Listing) (rest : List (String × List Listing)),
        main_notifications TH KW db ((name, batch) :: rest) =
          (stagedFilter TH KW name db batch).1 ++
            main_notifications TH KW (stagedFilter TH KW name db batch).2 rest) := by
  refine ⟨fun _ => rfl, fun _ _ _ => rfl, ?_⟩
  intro TH KW db name batch rest
  simp only [main_notifications, run_searches, scrape_eq_staged]

/-- Claim C1: evaluation of the pipeline at the failing input.  Within one
process the dedup is idempotent (a repeat insert is a no-op, and with the
store intact a second run drops the listing), but the `__main__` block of
`main.py` deletes `listings.db` before every run, so a listing accepted and
recorded in one process run is accepted, re-recorded and re-notified in the
next process run: two notifications for the same listing id across two
process runs, where the claim allows at most one. -/
theorem c1_cross_run_duplicate_alert :
    (process_run specPRICE_THRESHOLDS specKEYWORDS []
        [("Workstation Xeon",
          [{ id := "1234567", title := "Dell Xeon Workstation", price := 4500,
             url := "https://www.blocket.se/annons/1234567",
             source := "blocket" }])]).1 =
      [{ id := "1234567", title := "Dell Xeon Workstation", price := 4500,
         url := "https://www.blocket.se/annons/1234567",
         source := "blocket" }] ∧
      (process_run specPRICE_THRESHOLDS specKEYWORDS []
        [("Workstation Xeon",
          [{ id := "1234567", title := "Dell Xeon Workstation", price := 4500,
             url := "https://www.blocket.se/annons/1234567",
             source := "blocket" }])]).2 =
        [rowOf { id := "1234567", title := "Dell Xeon Workstation",
                 price := 4500,
                 url := "https://www.blocket.se/annons/1234567",
                 source := "blocket" }] ∧
      (process_run specPRICE_THRESHOLDS specKEYWORDS
        [rowOf { id := "1234567", title := "Dell Xeon Workstation",
                 price := 4500,
                 url := "https://www.blocket.se/annons/1234567",
                 source := "blocket" }]
        [("Workstation Xeon",
          [{ id := "1234567", title := "Dell Xeon Workstation", price := 4500,
             url := "https://www.blocket.se/annons/1234567",
             source := "blocket" }])]).1 =
        [{ id := "1234567", title := "Dell Xeon Workstation", price := 4500,
           url := "https://www.blocket.se/annons/1234567",
           source := "blocket" }] ∧
      insertOrIgnore
        [rowOf { id := "1234567", title := "Dell Xeon Workstation",
                 price := 4500,
                 url := "https://www.blocket.se/annons/1234567",
                 source := "blocket" }]
        (rowOf { id := "1234567", title := "Dell Xeon Workstation",
                 price := 4500,
                 url := "https://www.blocket.se/annons/1234567",
                 source := "blocket" }) =
        [rowOf { id := "1234567", title := "Dell Xeon Workstation",
                 price := 4500,
                 url := "https://www.blocket.se/annons/1234567",
                 source := "blocket" }] ∧
      (run_searches specPRICE_THRESHOLDS specKEYWORDS
        [rowOf { id := "1234567", title := "Dell Xeon Workstation",
                 price := 4500,
                 url := "https://www.blocket.se/annons/1234567",
                 source := "blocket" }]
        [("Workstation Xeon",
          [{ id := "1234567", title := "Dell Xeon Workstation", price := 4500,
             url := "https://www.blocket.se/annons/1234567",
             source := "blocket" }])]).1 = [] := by
  exact ⟨by decide, by decide, by decide, by decide, by decide⟩

end DealSniper
